import Mathlib

/-!
Shallow embedding of the playback-buffer / ABR / metrics core of the
quic-vs-dash streaming repository.

The repository duplicates a metrics-and-buffer control loop across two
transport clients:

* `src/streaming/dash_client.py` — chunked-HTTP path (`MetricsCalculator`
  plus module-level threshold ABR selection);
* `src/streaming/quic_client.py` — multiplexed-stream path
  (`MetricsCalculator`, `VideoStreamProtocol.request_next_segment`,
  `VideoStreamClient.run`).

Python floats are modelled as rationals (`ℚ`); wall-clock reads
(`time.time()`, `datetime.now()`) are modelled by explicit `now` /
`timestamp` parameters.  File and console I/O is ignored: only the state
mutations and return values are embedded.
-/

namespace QuicVsDash

/-- Python's builtin `max` on two rationals (kernel-computable; agrees
with `max` on `ℚ`). -/
def pymax (a b : ℚ) : ℚ := if a ≤ b then b else a

/-- Python's builtin `min` on two rationals (kernel-computable; agrees
with `min` on `ℚ`). -/
def pymin (a b : ℚ) : ℚ := if a ≤ b then a else b

/-- Python's builtin `abs` on a rational (kernel-computable; agrees with
`|·|` on `ℚ`). -/
def pyabs (a : ℚ) : ℚ := if a < 0 then -a else a

theorem pymax_eq_max (a b : ℚ) : pymax a b = max a b := by
  simp [pymax, max_def]

theorem pymin_eq_min (a b : ℚ) : pymin a b = min a b := by
  simp [pymin, min_def]

/-- The four buffer-accounting fields shared verbatim by both clients'
`MetricsCalculator.__init__`: `buffer_level`, `rebuffering_count`,
`rebuffering_start_time`, `total_rebuffering_duration`. -/
structure BufferState where
  buffer_level : ℚ
  rebuffering_count : ℕ
  rebuffering_start_time : Option ℚ
  total_rebuffering_duration : ℚ
deriving DecidableEq, Repr

/-- Fresh buffer state as set up by both `__init__` methods:
level `0.0`, count `0`, start time `None`, duration `0.0`. -/
def bufInit : BufferState := ⟨0, 0, none, 0⟩

/-- `MetricsCalculator.update_buffer` of `src/streaming/quic_client.py`
(lines 89–113).  In order: debit the buffer by `download_time` when it is
positive (clamped at `0`); if the level is now `<= 0` and no stall is in
progress, open a stall (`rebuffering_start_time = now`,
`rebuffering_count += 1`, report `True`); credit `segment_duration` only
when `is_segment_complete`; finally, if a stall is in progress and the
level is positive, close it and accumulate its wall-clock duration. -/
def quic_update_buffer (segment_duration now download_time : ℚ)
    (is_segment_complete : Bool) (s : BufferState) : BufferState × Bool :=
  let level1 := if 0 < s.buffer_level then pymax 0 (s.buffer_level - download_time)
                else s.buffer_level
  let was_rebuffering := decide (level1 ≤ 0) && s.rebuffering_start_time.isNone
  let start1 := if was_rebuffering then some now else s.rebuffering_start_time
  let count1 := if was_rebuffering then s.rebuffering_count + 1 else s.rebuffering_count
  let level2 := if is_segment_complete then level1 + segment_duration else level1
  match start1 with
  | some t =>
      if 0 < level2 then
        (⟨level2, count1, none, s.total_rebuffering_duration + (now - t)⟩, was_rebuffering)
      else
        (⟨level2, count1, some t, s.total_rebuffering_duration⟩, was_rebuffering)
  | none => (⟨level2, count1, none, s.total_rebuffering_duration⟩, was_rebuffering)

/-- `MetricsCalculator.update_buffer` of `src/streaming/dash_client.py`
(lines 72–95).  Unlike the quic variant, the stall check looks at the
*entry* buffer level: if `buffer_level <= 0`, a stall may be opened and no
debit happens (the debit sits in the `else` branch); the
`segment_duration` credit is unconditional; stall closing is as in the
quic variant. -/
def dash_update_buffer (now download_time segment_duration : ℚ)
    (s : BufferState) : BufferState × Bool :=
  let was_rebuffering := decide (s.buffer_level ≤ 0) && s.rebuffering_start_time.isNone
  let start1 := if was_rebuffering then some now else s.rebuffering_start_time
  let count1 := if was_rebuffering then s.rebuffering_count + 1 else s.rebuffering_count
  let level1 := if s.buffer_level ≤ 0 then s.buffer_level
                else pymax 0 (s.buffer_level - download_time)
  let level2 := level1 + segment_duration
  match start1 with
  | some t =>
      if 0 < level2 then
        (⟨level2, count1, none, s.total_rebuffering_duration + (now - t)⟩, was_rebuffering)
      else
        (⟨level2, count1, some t, s.total_rebuffering_duration⟩, was_rebuffering)
  | none => (⟨level2, count1, none, s.total_rebuffering_duration⟩, was_rebuffering)

/-- Fold `quic_update_buffer` over a list of `(now, download_time,
is_segment_complete)` observations, as the quic client does once per
received chunk and once per completion/timeout. -/
def quic_run (segment_duration : ℚ) (inputs : List (ℚ × ℚ × Bool))
    (s : BufferState) : BufferState :=
  inputs.foldl (fun st i => (quic_update_buffer segment_duration i.1 i.2.1 i.2.2 st).1) s

/-- Fold `dash_update_buffer` over a list of `(now, download_time,
segment_duration)` observations, as the dash client does once per
downloaded segment. -/
def dash_run (inputs : List (ℚ × ℚ × ℚ)) (s : BufferState) : BufferState :=
  inputs.foldl (fun st i => (dash_update_buffer i.1 i.2.1 i.2.2 st).1) s

example : quic_update_buffer 2 10 3 true ⟨1, 0, none, 0⟩ =
    (⟨2, 1, none, 0⟩, true) := by norm_num [quic_update_buffer, dash_update_buffer, pymax]

example : dash_update_buffer 10 3 2 ⟨1, 0, none, 0⟩ =
    (⟨2, 0, none, 0⟩, false) := by norm_num [quic_update_buffer, dash_update_buffer, pymax]

example : quic_update_buffer 2 10 1 false ⟨0, 0, none, 0⟩ =
    (⟨0, 1, some 10, 0⟩, true) := by norm_num [quic_update_buffer, dash_update_buffer, pymax]

example : dash_update_buffer 10 1 2 ⟨0, 0, none, 0⟩ =
    (⟨2, 1, none, 0⟩, true) := by norm_num [quic_update_buffer, dash_update_buffer, pymax]

/-! ### Projection lemmas for the two buffer updates -/

theorem quic_update_buffer_level (sd now dt : ℚ) (c : Bool) (s : BufferState) :
    (quic_update_buffer sd now dt c s).1.buffer_level =
      (if 0 < s.buffer_level then pymax 0 (s.buffer_level - dt) else s.buffer_level) +
        (if c then sd else 0) := by
  obtain ⟨L, C, St, T⟩ := s
  simp only [quic_update_buffer]
  cases St <;> cases c <;> split_ifs <;> simp_all

theorem quic_update_buffer_snd (sd now dt : ℚ) (c : Bool) (s : BufferState) :
    (quic_update_buffer sd now dt c s).2 =
      (decide ((if 0 < s.buffer_level then pymax 0 (s.buffer_level - dt)
                else s.buffer_level) ≤ 0) && s.rebuffering_start_time.isNone) := by
  obtain ⟨L, C, St, T⟩ := s
  simp only [quic_update_buffer]
  cases St <;> split_ifs <;> simp_all

theorem quic_update_buffer_count (sd now dt : ℚ) (c : Bool) (s : BufferState) :
    (quic_update_buffer sd now dt c s).1.rebuffering_count =
      (if (quic_update_buffer sd now dt c s).2 then s.rebuffering_count + 1
       else s.rebuffering_count) := by
  obtain ⟨L, C, St, T⟩ := s
  simp only [quic_update_buffer]
  cases St <;> split_ifs <;> simp_all

theorem dash_update_buffer_level (now dt sd : ℚ) (s : BufferState) :
    (dash_update_buffer now dt sd s).1.buffer_level =
      (if s.buffer_level ≤ 0 then s.buffer_level else pymax 0 (s.buffer_level - dt)) + sd := by
  obtain ⟨L, C, St, T⟩ := s
  simp only [dash_update_buffer]
  cases St <;> split_ifs <;> simp_all

theorem dash_update_buffer_snd (now dt sd : ℚ) (s : BufferState) :
    (dash_update_buffer now dt sd s).2 =
      (decide (s.buffer_level ≤ 0) && s.rebuffering_start_time.isNone) := by
  obtain ⟨L, C, St, T⟩ := s
  simp only [dash_update_buffer]
  cases St <;> split_ifs <;> simp_all

theorem dash_update_buffer_count (now dt sd : ℚ) (s : BufferState) :
    (dash_update_buffer now dt sd s).1.rebuffering_count =
      (if (dash_update_buffer now dt sd s).2 then s.rebuffering_count + 1
       else s.rebuffering_count) := by
  obtain ⟨L, C, St, T⟩ := s
  simp only [dash_update_buffer]
  cases St <;> split_ifs <;> simp_all

theorem quic_update_buffer_count_mono (sd now dt : ℚ) (c : Bool) (s : BufferState) :
    s.rebuffering_count ≤ (quic_update_buffer sd now dt c s).1.rebuffering_count := by
  rw [quic_update_buffer_count]
  split_ifs <;> omega

theorem dash_update_buffer_count_mono (now dt sd : ℚ) (s : BufferState) :
    s.rebuffering_count ≤ (dash_update_buffer now dt sd s).1.rebuffering_count := by
  rw [dash_update_buffer_count]
  split_ifs <;> omega

theorem quic_level1_nonpos (L dt : ℚ) (h : L ≤ 0 ∨ L ≤ dt) :
    (if 0 < L then pymax 0 (L - dt) else L) ≤ 0 := by
  rcases h with h | h
  · rw [if_neg (not_lt.mpr h)]; exact h
  · split_ifs with h0
    · simp only [pymax]
      split_ifs with h1 <;> linarith
    · exact le_of_not_lt h0

/-- Claim C1 (amended): in the multiplexed-stream (quic) `update_buffer`,
whenever the elapsed-time debit brings the level to `<= 0` (the entry
level is `<= 0` or `<= download_time`) and no stall is already marked,
that same call reports rebuffering, increments the count by one, and sets
the stall start to `now` — so an immediate in-call resolution accumulates
a zero stall duration (the debit and stall check precede the credit). -/
theorem quic_stall_detected_same_call
    (sd now dt : ℚ) (complete : Bool) (s : BufferState)
    (hdebit : s.buffer_level ≤ 0 ∨ s.buffer_level ≤ dt)
    (hnostall : s.rebuffering_start_time = none) :
    ((quic_update_buffer sd now dt complete s).2 = true) ∧
    (quic_update_buffer sd now dt complete s).1.rebuffering_count = s.rebuffering_count + 1 ∧
    (quic_update_buffer sd now dt complete s).1.total_rebuffering_duration
      = s.total_rebuffering_duration ∧
    ((quic_update_buffer sd now dt complete s).1.buffer_level ≤ 0 →
      (quic_update_buffer sd now dt complete s).1.rebuffering_start_time = some now) ∧
    (0 < (quic_update_buffer sd now dt complete s).1.buffer_level →
      (quic_update_buffer sd now dt complete s).1.rebuffering_start_time = none) := by
  obtain ⟨L, C, St, T⟩ := s
  simp only at hdebit hnostall
  subst hnostall
  have h1 := quic_level1_nonpos L dt hdebit
  simp only [quic_update_buffer, Option.isNone_none, Bool.and_true, decide_eq_true h1]
  split_ifs with hlev <;> simp_all <;> linarith

/-- Witness for `quic_stall_detected_same_call`: a buffer holding one
second debited by a three-second download stalls in that very call. -/
theorem quic_stall_detected_same_call_witness :
    (((1 : ℚ) ≤ 0 ∨ (1 : ℚ) ≤ 3) ∧
      (BufferState.mk 1 0 none 0).rebuffering_start_time = none) ∧
    ((quic_update_buffer 2 10 3 true ⟨1, 0, none, 0⟩).2 = true ∧
      (quic_update_buffer 2 10 3 true ⟨1, 0, none, 0⟩).1.rebuffering_count = 0 + 1) :=
  ⟨⟨Or.inr (by norm_num), rfl⟩,
    ⟨(quic_stall_detected_same_call 2 10 3 true ⟨1, 0, none, 0⟩ (Or.inr (by norm_num)) rfl).1,
     (quic_stall_detected_same_call 2 10 3 true ⟨1, 0, none, 0⟩ (Or.inr (by norm_num)) rfl).2.1⟩⟩

/-- Claim C1 counterexample: in the chunked-HTTP (dash) `update_buffer`,
a call that debits a one-second buffer by a three-second download (which
brings the level to `0`, with no stall marked) reports no rebuffering and
leaves the count at `0` — the stall check there precedes the debit. -/
theorem dash_stall_missed_same_call_counterexample :
    (dash_update_buffer 10 3 2 ⟨1, 0, none, 0⟩).2 = false ∧
    (dash_update_buffer 10 3 2 ⟨1, 0, none, 0⟩).1.rebuffering_count = 0 := by
  norm_num [dash_update_buffer, pymax]

theorem quic_update_buffer_start (sd now dt : ℚ) (c : Bool) (s : BufferState) :
    (quic_update_buffer sd now dt c s).1.rebuffering_start_time =
      (if 0 < (quic_update_buffer sd now dt c s).1.buffer_level then none
       else if (quic_update_buffer sd now dt c s).2 then some now
       else s.rebuffering_start_time) := by
  obtain ⟨L, C, St, T⟩ := s
  simp only [quic_update_buffer]
  cases St <;> split_ifs <;> simp_all

theorem dash_update_buffer_start (now dt sd : ℚ) (s : BufferState) :
    (dash_update_buffer now dt sd s).1.rebuffering_start_time =
      (if 0 < (dash_update_buffer now dt sd s).1.buffer_level then none
       else if (dash_update_buffer now dt sd s).2 then some now
       else s.rebuffering_start_time) := by
  obtain ⟨L, C, St, T⟩ := s
  simp only [dash_update_buffer]
  cases St <;> split_ifs <;> simp_all

theorem pymax_zero_nonneg (x : ℚ) : 0 ≤ pymax 0 x := by
  simp only [pymax]
  split_ifs <;> linarith

/-! ### Claim C7: one rebuffer count per contiguous stall -/

/-- Claim C7: in both buffer updates, the rebuffer count increments at
most once per maximal stalled interval: while `rebuffering_start_time` is
set no call increments the count; a count change forces an unstalled
entry state and is exactly `+1`; a marked stall is cleared only when the
end-of-call level is positive; and for the quic update a non-crediting
(partial) observation during a stall with a depleted buffer leaves the
stall open, its start timestamp intact, and the level at or below zero. -/
theorem stall_counted_once_per_stall_interval
    (sd now dt : ℚ) (complete : Bool) (s : BufferState) :
    (s.rebuffering_start_time.isSome = true →
       (quic_update_buffer sd now dt complete s).2 = false ∧
       (quic_update_buffer sd now dt complete s).1.rebuffering_count
         = s.rebuffering_count) ∧
    ((quic_update_buffer sd now dt complete s).1.rebuffering_count
         ≠ s.rebuffering_count →
       s.rebuffering_start_time = none ∧
       (quic_update_buffer sd now dt complete s).1.rebuffering_count
         = s.rebuffering_count + 1) ∧
    (s.rebuffering_start_time.isSome = true →
       (quic_update_buffer sd now dt complete s).1.rebuffering_start_time = none →
       0 < (quic_update_buffer sd now dt complete s).1.buffer_level) ∧
    (∀ t0 : ℚ, s.rebuffering_start_time = some t0 → s.buffer_level ≤ 0 →
       complete = false →
       (quic_update_buffer sd now dt complete s).1.rebuffering_start_time = some t0 ∧
       (quic_update_buffer sd now dt complete s).1.buffer_level ≤ 0) ∧
    (s.rebuffering_start_time.isSome = true →
       (dash_update_buffer now dt sd s).2 = false ∧
       (dash_update_buffer now dt sd s).1.rebuffering_count = s.rebuffering_count) ∧
    ((dash_update_buffer now dt sd s).1.rebuffering_count ≠ s.rebuffering_count →
       s.rebuffering_start_time = none ∧
       (dash_update_buffer now dt sd s).1.rebuffering_count
         = s.rebuffering_count + 1) ∧
    (s.rebuffering_start_time.isSome = true →
       (dash_update_buffer now dt sd s).1.rebuffering_start_time = none →
       0 < (dash_update_buffer now dt sd s).1.buffer_level) := by
  have hql := quic_update_buffer_level sd now dt complete s
  have hqs := quic_update_buffer_snd sd now dt complete s
  have hqc := quic_update_buffer_count sd now dt complete s
  have hqst := quic_update_buffer_start sd now dt complete s
  have hds := dash_update_buffer_snd now dt sd s
  have hdc := dash_update_buffer_count now dt sd s
  have hdst := dash_update_buffer_start now dt sd s
  obtain ⟨L, C, St, T⟩ := s
  cases St with
  | none =>
      refine ⟨?_, ?_, ?_, ?_, ?_, ?_, ?_⟩
      · intro h; simp at h
      · intro h
        rw [hqc] at h ⊢
        split_ifs at h ⊢ with hw
        · exact ⟨rfl, rfl⟩
        · exact absurd rfl h
      · intro h; simp at h
      · intro t0 ht0; simp at ht0
      · intro h; simp at h
      · intro h
        rw [hdc] at h ⊢
        split_ifs at h ⊢ with hw
        · exact ⟨rfl, rfl⟩
        · exact absurd rfl h
      · intro h; simp at h
  | some t0 =>
      simp only [Option.isNone_some, Bool.and_false] at hqs hds
      have hqc1 : (quic_update_buffer sd now dt complete ⟨L, C, some t0, T⟩).1.rebuffering_count
          = C := by rw [hqc, hqs]; simp
      have hdc1 : (dash_update_buffer now dt sd ⟨L, C, some t0, T⟩).1.rebuffering_count
          = C := by rw [hdc, hds]; simp
      refine ⟨fun _ => ⟨hqs, hqc1⟩, fun h => absurd hqc1 h, ?_, ?_,
        fun _ => ⟨hds, hdc1⟩, fun h => absurd hdc1 h, ?_⟩
      · intro _ hcl
        rw [hqst, hqs] at hcl
        by_contra hpos
        rw [if_neg hpos] at hcl
        simp at hcl
      · intro t1 ht1 hlev hcomp
        have ht1e : t1 = t0 := by injection ht1 with h; exact h.symm
        subst ht1e
        subst hcomp
        have hlev2 : (quic_update_buffer sd now dt false ⟨L, C, some t1, T⟩).1.buffer_level ≤ 0 := by
          rw [hql]
          simp only [Bool.false_eq_true, if_false, if_neg (not_lt.mpr hlev), add_zero]
          exact hlev
        refine ⟨?_, hlev2⟩
        rw [hqst, hqs]
        rw [if_neg (not_lt.mpr hlev2)]
        simp
      · intro _ hcl
        rw [hdst, hds] at hcl
        by_contra hpos
        rw [if_neg hpos] at hcl
        simp at hcl

/-- Witness for `stall_counted_once_per_stall_interval`: a stalled state
(`rebufferStartedAt = 5`, count `1`) sees no second increment on a
further partial observation, in either update. -/
theorem stall_counted_once_witness :
    (quic_update_buffer 2 7 1 false ⟨0, 1, some 5, 0⟩).1.rebuffering_count = 1 ∧
    (quic_update_buffer 2 7 1 false ⟨0, 1, some 5, 0⟩).1.rebuffering_start_time = some 5 ∧
    (dash_update_buffer 7 1 2 ⟨0, 1, some 5, 0⟩).1.rebuffering_count = 1 :=
  ⟨((stall_counted_once_per_stall_interval 2 7 1 false ⟨0, 1, some 5, 0⟩).1 rfl).2,
   ((stall_counted_once_per_stall_interval 2 7 1 false ⟨0, 1, some 5, 0⟩).2.2.2.1 5 rfl
      le_rfl rfl).1,
   ((stall_counted_once_per_stall_interval 2 7 1 false ⟨0, 1, some 5, 0⟩).2.2.2.2.1 rfl).2⟩

/-! ### Claim C6: the buffer level never goes negative -/

theorem quic_update_buffer_level_nonneg (sd now dt : ℚ) (c : Bool) (s : BufferState)
    (hsd : 0 ≤ sd) (hs : 0 ≤ s.buffer_level) :
    0 ≤ (quic_update_buffer sd now dt c s).1.buffer_level := by
  rw [quic_update_buffer_level]
  have := pymax_zero_nonneg (s.buffer_level - dt)
  split_ifs <;> linarith

theorem dash_update_buffer_level_nonneg (now dt sd : ℚ) (s : BufferState)
    (hsd : 0 ≤ sd) (hs : 0 ≤ s.buffer_level) :
    0 ≤ (dash_update_buffer now dt sd s).1.buffer_level := by
  rw [dash_update_buffer_level]
  have := pymax_zero_nonneg (s.buffer_level - dt)
  split_ifs <;> linarith

theorem quic_run_level_nonneg (sd : ℚ) (inputs : List (ℚ × ℚ × Bool)) (s : BufferState)
    (hsd : 0 ≤ sd) (hs : 0 ≤ s.buffer_level) :
    0 ≤ (quic_run sd inputs s).buffer_level := by
  induction inputs generalizing s with
  | nil => simpa [quic_run] using hs
  | cons i rest ih =>
      simp only [quic_run, List.foldl_cons] at ih ⊢
      exact ih _ (quic_update_buffer_level_nonneg _ _ _ _ _ hsd hs)

theorem dash_run_level_nonneg (inputs : List (ℚ × ℚ × ℚ)) (s : BufferState)
    (hs : 0 ≤ s.buffer_level) (hsd : ∀ i ∈ inputs, 0 ≤ i.2.2) :
    0 ≤ (dash_run inputs s).buffer_level := by
  induction inputs generalizing s with
  | nil => simpa [dash_run] using hs
  | cons i rest ih =>
      simp only [dash_run, List.foldl_cons] at ih ⊢
      exact ih _ (dash_update_buffer_level_nonneg _ _ _ _
          (hsd i (List.mem_cons_self i rest)) hs)
        (fun j hj => hsd j (List.mem_cons_of_mem i hj))

/-- Claim C6: starting from the fresh buffer state, every sequence of
updates with non-negative elapsed times and non-negative segment
durations keeps `levelSeconds ≥ 0` after every call (every prefix of the
observation sequence), in both clients. -/
theorem level_seconds_never_negative
    (sd : ℚ) (qinputs : List (ℚ × ℚ × Bool)) (dinputs : List (ℚ × ℚ × ℚ))
    (hsd : 0 ≤ sd)
    (_hq : ∀ i ∈ qinputs, 0 ≤ i.2.1)
    (hd : ∀ i ∈ dinputs, 0 ≤ i.2.1 ∧ 0 ≤ i.2.2) :
    (∀ n : ℕ, 0 ≤ (quic_run sd (qinputs.take n) bufInit).buffer_level) ∧
    (∀ n : ℕ, 0 ≤ (dash_run (dinputs.take n) bufInit).buffer_level) := by
  refine ⟨fun n => ?_, fun n => ?_⟩
  · exact quic_run_level_nonneg sd _ bufInit hsd le_rfl
  · exact dash_run_level_nonneg _ bufInit le_rfl
      (fun j hj => (hd j (List.take_subset n dinputs hj)).2)

/-- Witness for `level_seconds_never_negative`: a concrete three-call
schedule on each client keeps the level non-negative throughout. -/
theorem level_seconds_never_negative_witness :
    (∀ n : ℕ, 0 ≤ (quic_run 2 ([(1, 1, true), (2, 5, false), (3, 1, true)].take n)
        bufInit).buffer_level) ∧
    (∀ n : ℕ, 0 ≤ (dash_run ([(1, 1, 2), (2, 5, 2), (3, 1, 2)].take n)
        bufInit).buffer_level) :=
  level_seconds_never_negative 2 [(1, 1, true), (2, 5, false), (3, 1, true)]
    [(1, 1, 2), (2, 5, 2), (3, 1, 2)] (by norm_num)
    (by intro i hi; fin_cases hi <;> norm_num)
    (by intro i hi; fin_cases hi <;> norm_num)

/-! ### Claim C9: negative elapsed time is NOT rejected -/

/-- Claim C9 (amended): neither `update_buffer` has an error branch for a
negative elapsed time.  With `download_time < 0` and a positive buffer,
both updates proceed silently and the "debit" `max(0, level - elapsed)`
*increases* the level by `|elapsed|` (plus the credit); no rebuffering is
signalled and the count is untouched. -/
theorem negative_elapsed_time_not_rejected
    (sd now dt : ℚ) (complete : Bool) (s : BufferState)
    (hneg : dt < 0) (hpos : 0 < s.buffer_level) :
    ((quic_update_buffer sd now dt complete s).2 = false ∧
     (quic_update_buffer sd now dt complete s).1.buffer_level =
       s.buffer_level - dt + (if complete then sd else 0) ∧
     (quic_update_buffer sd now dt complete s).1.rebuffering_count
       = s.rebuffering_count) ∧
    ((dash_update_buffer now dt sd s).2 = false ∧
     (dash_update_buffer now dt sd s).1.buffer_level = s.buffer_level - dt + sd ∧
     (dash_update_buffer now dt sd s).1.rebuffering_count = s.rebuffering_count) := by
  have h1 : pymax 0 (s.buffer_level - dt) = s.buffer_level - dt := by
    rw [pymax, if_pos (by linarith)]
  have hq2 : (quic_update_buffer sd now dt complete s).2 = false := by
    rw [quic_update_buffer_snd, if_pos hpos, h1]
    simp only [Bool.and_eq_false_imp, decide_eq_true_eq]
    intro h
    linarith
  have hd2 : (dash_update_buffer now dt sd s).2 = false := by
    rw [dash_update_buffer_snd]
    simp only [Bool.and_eq_false_imp, decide_eq_true_eq]
    intro h
    linarith
  refine ⟨⟨hq2, ?_, ?_⟩, hd2, ?_, ?_⟩
  · rw [quic_update_buffer_level, if_pos hpos, h1]
  · rw [quic_update_buffer_count, hq2]; simp
  · rw [dash_update_buffer_level, if_neg (not_le.mpr hpos), h1]
  · rw [dash_update_buffer_count, hd2]; simp

/-- Witness for `negative_elapsed_time_not_rejected`: elapsed `-1` on a
one-second buffer silently grows the level in both updates. -/
theorem negative_elapsed_time_not_rejected_witness :
    ((-1 : ℚ) < 0 ∧ (0 : ℚ) < 1) ∧
    (quic_update_buffer 2 0 (-1) false ⟨1, 0, none, 0⟩).1.buffer_level =
      1 - (-1) + 0 ∧
    (dash_update_buffer 0 (-1) 2 ⟨1, 0, none, 0⟩).1.buffer_level = 1 - (-1) + 2 :=
  ⟨⟨by norm_num, by norm_num⟩,
   by
    have h := (negative_elapsed_time_not_rejected 2 0 (-1) false ⟨1, 0, none, 0⟩
      (by norm_num) (by norm_num)).1.2.1
    simpa using h,
   by
    have h := (negative_elapsed_time_not_rejected 2 0 (-1) false ⟨1, 0, none, 0⟩
      (by norm_num) (by norm_num)).2.2.1
    simpa using h⟩

/-- Claim C9 counterexample: a call with elapsed time `-1` is not
rejected — it returns normally and the buffer state *changes* (the level
grows from `1` to `2`), contradicting a synchronous rejection that leaves
the state unchanged. -/
theorem negative_elapsed_time_accepted_counterexample :
    quic_update_buffer 2 0 (-1) false ⟨1, 0, none, 0⟩ = (⟨2, 0, none, 0⟩, false) ∧
    (2 : ℚ) ≠ 1 := by
  constructor
  · norm_num [quic_update_buffer, pymax]
  · norm_num

/-! ### Claim C10: the very first observation always records a stall -/

theorem quic_run_count_mono (sd : ℚ) (inputs : List (ℚ × ℚ × Bool)) (s : BufferState) :
    s.rebuffering_count ≤ (quic_run sd inputs s).rebuffering_count := by
  induction inputs generalizing s with
  | nil => simp [quic_run]
  | cons i rest ih =>
      simp only [quic_run, List.foldl_cons] at ih ⊢
      exact le_trans (quic_update_buffer_count_mono sd i.1 i.2.1 i.2.2 s) (ih _)

theorem dash_run_count_mono (inputs : List (ℚ × ℚ × ℚ)) (s : BufferState) :
    s.rebuffering_count ≤ (dash_run inputs s).rebuffering_count := by
  induction inputs generalizing s with
  | nil => simp [dash_run]
  | cons i rest ih =>
      simp only [dash_run, List.foldl_cons] at ih ⊢
      exact le_trans (dash_update_buffer_count_mono i.1 i.2.1 i.2.2 s) (ih _)

theorem quic_first_update_rebuffers (sd now dt : ℚ) (c : Bool) :
    (quic_update_buffer sd now dt c bufInit).2 = true ∧
    (quic_update_buffer sd now dt c bufInit).1.rebuffering_count = 1 := by
  have h2 : (quic_update_buffer sd now dt c bufInit).2 = true := by
    rw [quic_update_buffer_snd]
    simp [bufInit]
  exact ⟨h2, by rw [quic_update_buffer_count, h2]; simp [bufInit]⟩

theorem dash_first_update_rebuffers (now dt sd : ℚ) :
    (dash_update_buffer now dt sd bufInit).2 = true ∧
    (dash_update_buffer now dt sd bufInit).1.rebuffering_count = 1 := by
  have h2 : (dash_update_buffer now dt sd bufInit).2 = true := by
    rw [dash_update_buffer_snd]
    simp [bufInit]
  exact ⟨h2, by rw [dash_update_buffer_count, h2]; simp [bufInit]⟩

/-- Claim C10: from the freshly constructed calculator state (level `0`,
no stall marked), the very first buffer update reports rebuffering and
sets the count to `1` — for any elapsed time `≥ 0`, completion flag and
clock value, in both clients — and consequently any non-empty observation
sequence ends with `rebufferCount ≥ 1`. -/
theorem first_observation_always_rebuffers
    (sd now dt : ℚ) (complete : Bool) (_hdt : 0 ≤ dt) :
    ((quic_update_buffer sd now dt complete bufInit).2 = true ∧
     (quic_update_buffer sd now dt complete bufInit).1.rebuffering_count = 1) ∧
    ((dash_update_buffer now dt sd bufInit).2 = true ∧
     (dash_update_buffer now dt sd bufInit).1.rebuffering_count = 1) ∧
    (∀ qinputs : List (ℚ × ℚ × Bool), qinputs ≠ [] →
       1 ≤ (quic_run sd qinputs bufInit).rebuffering_count) ∧
    (∀ dinputs : List (ℚ × ℚ × ℚ), dinputs ≠ [] →
       1 ≤ (dash_run dinputs bufInit).rebuffering_count) := by
  refine ⟨quic_first_update_rebuffers sd now dt complete,
    dash_first_update_rebuffers now dt sd, ?_, ?_⟩
  · intro qinputs hne
    match qinputs with
    | [] => exact absurd rfl hne
    | i :: rest =>
        have h1 := (quic_first_update_rebuffers sd i.1 i.2.1 i.2.2).2
        calc 1 = (quic_update_buffer sd i.1 i.2.1 i.2.2 bufInit).1.rebuffering_count :=
              h1.symm
          _ ≤ _ := by
              simp only [quic_run, List.foldl_cons]
              exact quic_run_count_mono sd rest _
  · intro dinputs hne
    match dinputs with
    | [] => exact absurd rfl hne
    | i :: rest =>
        have h1 := (dash_first_update_rebuffers i.1 i.2.1 i.2.2).2
        calc 1 = (dash_update_buffer i.1 i.2.1 i.2.2 bufInit).1.rebuffering_count :=
              h1.symm
          _ ≤ _ := by
              simp only [dash_run, List.foldl_cons]
              exact dash_run_count_mono rest _

/-- Witness for `first_observation_always_rebuffers` at a concrete first
observation (elapsed `1`, complete). -/
theorem first_observation_always_rebuffers_witness :
    ((0 : ℚ) ≤ 1) ∧
    (quic_update_buffer 2 0 1 true bufInit).1.rebuffering_count = 1 ∧
    (dash_update_buffer 0 1 2 bufInit).1.rebuffering_count = 1 ∧
    1 ≤ (quic_run 2 [(0, 1, true)] bufInit).rebuffering_count :=
  ⟨by norm_num,
   (first_observation_always_rebuffers 2 0 1 true (by norm_num)).1.2,
   (first_observation_always_rebuffers 2 0 1 true (by norm_num)).2.1.2,
   (first_observation_always_rebuffers 2 0 1 true (by norm_num)).2.2.1
     [(0, 1, true)] (by simp)⟩

/-! ### Claim C8: chunked path vs unified update on complete-only runs -/

theorem update_buffer_level_agree (sd now dt : ℚ) (s t : BufferState)
    (h : s.buffer_level = t.buffer_level) :
    (dash_update_buffer now dt sd s).1.buffer_level
      = (quic_update_buffer sd now dt true t).1.buffer_level := by
  rw [dash_update_buffer_level, quic_update_buffer_level, h]
  simp only [if_true]
  rcases le_or_lt t.buffer_level 0 with h0 | h0
  · rw [if_pos h0, if_neg (not_lt.mpr h0)]
  · rw [if_neg (not_le.mpr h0), if_pos h0]

/-- Claim C8 (amended): on complete-only observation sequences the
chunked-HTTP buffer update and the unified (quic) update called with
`isSegmentComplete = true` produce identical `levelSeconds` trajectories
— but not identical rebuffering statistics (see the counterexample): the
stall-detection order differs. -/
theorem complete_only_level_trajectory_agrees
    (sd : ℚ) (inputs : List (ℚ × ℚ)) (s t : BufferState)
    (h : s.buffer_level = t.buffer_level) :
    (dash_run (inputs.map fun i => (i.1, i.2, sd)) s).buffer_level
      = (quic_run sd (inputs.map fun i => (i.1, i.2, true)) t).buffer_level := by
  induction inputs generalizing s t with
  | nil => simpa [dash_run, quic_run] using h
  | cons i rest ih =>
      simp only [List.map_cons, dash_run, quic_run, List.foldl_cons] at ih ⊢
      exact ih _ _ (update_buffer_level_agree sd i.1 i.2 s t h)

/-- Witness for `complete_only_level_trajectory_agrees` on a concrete
two-segment schedule from the fresh state. -/
theorem complete_only_level_trajectory_agrees_witness :
    bufInit.buffer_level = bufInit.buffer_level ∧
    (dash_run [(10, 1, 2), (20, 2, 2)] bufInit).buffer_level
      = (quic_run 2 [(10, 1, true), (20, 2, true)] bufInit).buffer_level :=
  ⟨rfl, complete_only_level_trajectory_agrees 2 [(10, 1), (20, 2)] bufInit bufInit rfl⟩

/-- Claim C8 counterexample: the same two complete observations (elapsed
`1` then `2`, segment duration `2`) leave the chunked-HTTP path at
`rebufferCount = 1` but the unified update (with
`isSegmentComplete = true`) at `rebufferCount = 2`, and the second call
reports `wasRebuffering` differently — the two buffer accountings
diverge on complete-only sequences. -/
theorem complete_only_divergence_counterexample :
    (dash_run [(10, 1, 2), (20, 2, 2)] bufInit).rebuffering_count = 1 ∧
    (quic_run 2 [(10, 1, true), (20, 2, true)] bufInit).rebuffering_count = 2 ∧
    (dash_update_buffer 20 2 2 (dash_run [(10, 1, 2)] bufInit)).2 = false ∧
    (quic_update_buffer 2 20 2 true (quic_run 2 [(10, 1, true)] bufInit)).2 = true := by
  refine ⟨?_, ?_, ?_, ?_⟩ <;>
    norm_num [dash_run, quic_run, List.foldl_cons, List.foldl_nil,
      dash_update_buffer, quic_update_buffer, pymax, bufInit]

/-! ### Claim C4: threshold-affordability representation selection -/

/-- One parsed `Representation` dictionary of `dash_client.py`
(module level, manifest parsing): only the `id` and `bandwidth` keys
matter to the selection logic. -/
structure Representation where
  id : String
  bandwidth : ℚ
deriving DecidableEq, Repr

/-- The adaptive-bitrate selection of `src/streaming/dash_client.py`
(lines 266–272): filter the (ascending-sorted) representation list to
those with `bandwidth < smoothed_throughput * safety_factor`, pick the
last (highest) suitable one, else fall back to `representations[0]`
(`none` models the `IndexError` on an empty list). -/
def select_representation (representations : List Representation)
    (smoothed_throughput safety_factor : ℚ) : Option Representation :=
  let suitable_reps := representations.filter
    (fun r => r.bandwidth < smoothed_throughput * safety_factor)
  match suitable_reps.getLast? with
  | some r => some r
  | none => representations.head?

theorem bandwidth_le_getLast (l : List Representation) (g : Representation)
    (hp : l.Pairwise (fun a b => a.bandwidth ≤ b.bandwidth))
    (hg : l.getLast? = some g) : ∀ x ∈ l, x.bandwidth ≤ g.bandwidth := by
  induction l with
  | nil => simp at hg
  | cons a t ih =>
      cases t with
      | nil =>
          simp only [List.getLast?_singleton, Option.some.injEq] at hg
          subst hg
          intro x hx
          simp only [List.mem_singleton] at hx
          subst hx
          exact le_rfl
      | cons b t2 =>
          rw [List.getLast?_cons_cons] at hg
          have hp2 := (List.pairwise_cons.mp hp).2
          have hpa := (List.pairwise_cons.mp hp).1
          intro x hx
          rcases List.mem_cons.mp hx with hxa | hxt
          · subst hxa
            have hgmem : g ∈ b :: t2 := List.mem_of_mem_getLast? hg
            exact hpa g hgmem
          · exact ih hp2 hg x hxt

/-- Claim C4: for an ascending-sorted non-empty ladder, the threshold
policy (`safety_factor = 0.8`) selects a representation of the ladder
that is the highest one with `bandwidth < smoothedThroughput * 0.8`, or
the ladder's first (lowest) representation when none qualifies. -/
theorem threshold_policy_selects_highest_affordable
    (reps : List Representation) (s : ℚ)
    (hsorted : reps.Pairwise (fun a b => a.bandwidth ≤ b.bandwidth))
    (hne : reps ≠ []) :
    ∃ r, select_representation reps s (4/5) = some r ∧ r ∈ reps ∧
      ((r.bandwidth < s * (4/5) ∧
          ∀ q ∈ reps, q.bandwidth < s * (4/5) → q.bandwidth ≤ r.bandwidth) ∨
       ((∀ q ∈ reps, ¬ q.bandwidth < s * (4/5)) ∧ reps.head? = some r)) := by
  cases h : (reps.filter (fun r => r.bandwidth < s * (4/5))).getLast? with
  | some r =>
      have hmem : r ∈ reps.filter (fun r => r.bandwidth < s * (4/5)) :=
        List.mem_of_mem_getLast? h
      have hmem2 := List.mem_filter.mp hmem
      refine ⟨r, ?_, hmem2.1, Or.inl ⟨by simpa using hmem2.2, ?_⟩⟩
      · simp only [select_representation, h]
      · intro q hq hqb
        have hqf : q ∈ reps.filter (fun r => r.bandwidth < s * (4/5)) :=
          List.mem_filter.mpr ⟨hq, by simpa using hqb⟩
        exact bandwidth_le_getLast _ r (hsorted.sublist (List.filter_sublist reps)) h q hqf
  | none =>
      have hnil : reps.filter (fun r => r.bandwidth < s * (4/5)) = [] := by
        cases hf : reps.filter (fun r => r.bandwidth < s * (4/5)) with
        | nil => rfl
        | cons x xs =>
            rw [hf] at h
            exact absurd h (by simp [List.getLast?_eq_getLast])
      have hnone : ∀ q ∈ reps, ¬ q.bandwidth < s * (4/5) := by
        intro q hq
        have := List.filter_eq_nil_iff.mp hnil q hq
        simpa using this
      cases reps with
      | nil => exact absurd rfl hne
      | cons a t =>
          refine ⟨a, ?_, List.mem_cons_self a t, Or.inr ⟨hnone, rfl⟩⟩
          simp only [select_representation, List.filter_cons]
          rw [if_neg (by simpa using hnone a (List.mem_cons_self a t))]
          have : t.filter (fun r => r.bandwidth < s * (4/5)) = [] := by
            rw [List.filter_cons] at hnil
            rwa [if_neg (by simpa using hnone a (List.mem_cons_self a t))] at hnil
          simp [this]

/-- The ladder of the spec's worked example: bandwidths 500k/1M/2M/4M. -/
def exampleLadder : List Representation :=
  [⟨"500k", 500000⟩, ⟨"1M", 1000000⟩, ⟨"2M", 2000000⟩, ⟨"4M", 4000000⟩]

/-- Witness for `threshold_policy_selects_highest_affordable`: the
spec's two worked examples — smoothed `1.5M` picks the 1M rung, smoothed
`100k` picks the lowest (500k) rung. -/
theorem threshold_policy_witness :
    (exampleLadder.Pairwise (fun a b => a.bandwidth ≤ b.bandwidth) ∧ exampleLadder ≠ []) ∧
    select_representation exampleLadder 1500000 (4/5) = some ⟨"1M", 1000000⟩ ∧
    select_representation exampleLadder 100000 (4/5) = some ⟨"500k", 500000⟩ ∧
    (∃ r, select_representation exampleLadder 1500000 (4/5) = some r ∧
      r ∈ exampleLadder ∧
      ((r.bandwidth < 1500000 * (4/5) ∧
          ∀ q ∈ exampleLadder, q.bandwidth < 1500000 * (4/5) → q.bandwidth ≤ r.bandwidth) ∨
       ((∀ q ∈ exampleLadder, ¬ q.bandwidth < 1500000 * (4/5)) ∧
          exampleLadder.head? = some r))) :=
  ⟨⟨by norm_num [exampleLadder, List.pairwise_cons], by simp [exampleLadder]⟩,
   by norm_num [select_representation, exampleLadder, List.filter],
   by norm_num [select_representation, exampleLadder, List.filter],
   threshold_policy_selects_highest_affordable exampleLadder 1500000
     (by norm_num [exampleLadder, List.pairwise_cons]) (by simp [exampleLadder])⟩

/-! ### Claim C5: hysteresis step policy -/

/-- Python's `list.index` (first position of `current`), as used in
`VideoStreamProtocol.request_next_segment` (`self.bitrates.index(...)`);
`none` models the `ValueError` for an absent element. -/
def list_index (current : ℚ) : List ℚ → Option ℕ
  | [] => none
  | b :: rest =>
      if b = current then some 0
      else (list_index current rest).map (· + 1)

/-- The ABR decision of `src/streaming/quic_client.py` (lines 474–484):
step up one rung if `throughput > current * 1.5` and a higher rung
exists, else step down one rung if `throughput < current * 0.8` and a
lower rung exists, else keep the current bitrate. -/
def hysteresis_next (bitrates : List ℚ) (current throughput : ℚ) : Option ℚ :=
  match list_index current bitrates with
  | none => none
  | some idx =>
      if current * (3/2) < throughput ∧ idx < bitrates.length - 1 then
        bitrates[idx + 1]?
      else if throughput < current * (4/5) ∧ 0 < idx then
        bitrates[idx - 1]?
      else some current

theorem list_index_get (current : ℚ) (l : List ℚ) (i : ℕ)
    (h : list_index current l = some i) : l[i]? = some current := by
  induction l generalizing i with
  | nil => simp [list_index] at h
  | cons b rest ih =>
      rw [list_index] at h
      by_cases hb : b = current
      · rw [if_pos hb] at h
        injection h with h0
        subst h0
        simpa using hb
      · rw [if_neg hb] at h
        rcases Option.map_eq_some'.mp h with ⟨j, hj, hji⟩
        subst hji
        simpa using ih j hj

/-- Claim C5: given the position `i` of the current bitrate in the
ladder, the hysteresis policy steps to position `i+1` exactly when
`throughput > current * 1.5` and a higher rung exists, to position `i-1`
exactly when that fails, `throughput < current * 0.8` and a lower rung
exists, and otherwise keeps the current bitrate — never moving more than
one rung per decision. -/
theorem hysteresis_moves_one_rung
    (bitrates : List ℚ) (current throughput : ℚ) (i : ℕ)
    (hidx : list_index current bitrates = some i) :
    (current * (3/2) < throughput → i < bitrates.length - 1 →
       hysteresis_next bitrates current throughput = bitrates[i + 1]?) ∧
    (¬ (current * (3/2) < throughput ∧ i < bitrates.length - 1) →
       throughput < current * (4/5) → 0 < i →
       hysteresis_next bitrates current throughput = bitrates[i - 1]?) ∧
    (¬ (current * (3/2) < throughput ∧ i < bitrates.length - 1) →
       ¬ (throughput < current * (4/5) ∧ 0 < i) →
       hysteresis_next bitrates current throughput = some current) ∧
    bitrates[i]? = some current := by
  refine ⟨?_, ?_, ?_, list_index_get current bitrates i hidx⟩
  · intro h1 h2
    simp only [hysteresis_next, hidx]
    rw [if_pos ⟨h1, h2⟩]
  · intro hn h1 h2
    simp only [hysteresis_next, hidx]
    rw [if_neg hn, if_pos ⟨h1, h2⟩]
  · intro hn1 hn2
    simp only [hysteresis_next, hidx]
    rw [if_neg hn1, if_neg hn2]

/-- Witness for `hysteresis_moves_one_rung`: the spec's example — ladder
`[1, 2, 4, 8]`, current `1`, observed throughput `50` — steps to `2`,
not `8`. -/
theorem hysteresis_one_rung_witness :
    list_index 1 [1, 2, 4, 8] = some 0 ∧
    hysteresis_next [1, 2, 4, 8] 1 50 = some 2 := by
  have hidx : list_index 1 [(1 : ℚ), 2, 4, 8] = some 0 := by
    norm_num [list_index]
  have h := (hysteresis_moves_one_rung [1, 2, 4, 8] 1 50 0 hidx).1
    (by norm_num) (by norm_num)
  refine ⟨hidx, ?_⟩
  rw [h]
  norm_num

/-! ### Metrics recorder embedding (both clients) -/

/-- `collections.deque(maxlen)` append: once the window is full, pushing
a new sample evicts the oldest. -/
def deque_append (maxlen : ℕ) (hist : List ℚ) (v : ℚ) : List ℚ :=
  if maxlen ≤ hist.length then hist.tail ++ [v] else hist ++ [v]

/-- `get_smoothed_throughput` / `get_smoothed_rtt`: arithmetic mean of
the held samples, `0` if the window is empty. -/
def mean_or_zero (l : List ℚ) : ℚ := if l = [] then 0 else l.sum / l.length

/-- `MetricsCalculator.calculate_throughput` (identical in both
clients): `0` with *no* push when `download_time <= 0`, else
`data_size * 8 / download_time` pushed onto the 5-sample window. -/
def calculate_throughput (data_size : ℕ) (download_time : ℚ)
    (hist : List ℚ) : ℚ × List ℚ :=
  if download_time ≤ 0 then (0, hist)
  else
    let throughput := (data_size : ℚ) * 8 / download_time
    (throughput, deque_append 5 hist throughput)

/-- `MetricsCalculator.estimate_rtt` of `quic_client.py`: the elapsed
time itself for payloads under 10000 bytes, else a tenth of it; always
pushed onto the 10-sample window. -/
def estimate_rtt (download_time : ℚ) (segment_size : ℕ)
    (hist : List ℚ) : ℚ × List ℚ :=
  let rtt := if segment_size < 10000 then download_time else download_time * (1 / 10)
  (rtt, deque_append 10 hist rtt)

/-- Python `max` over a non-empty list (`0` stands in for the `ValueError`
on an empty one; every call site below guards non-emptiness). -/
def max_or_zero : List ℚ → ℚ
  | [] => 0
  | x :: xs => xs.foldl pymax x

/-- Python `min` over a non-empty list (see `max_or_zero`). -/
def min_or_zero : List ℚ → ℚ
  | [] => 0
  | x :: xs => xs.foldl pymin x

/-- The bitrate-switch count of `dash_client.py`'s summary: the number
of adjacent unequal pairs in `bitrate_history`. -/
def count_changes : List ℚ → ℕ
  | [] => 0
  | [_] => 0
  | a :: b :: t => (if a ≠ b then 1 else 0) + count_changes (b :: t)

/-- One row of `quic_client.py`'s metrics dictionary (the CSV columns),
timestamps as rationals.  Note the `rtt_estimate_sec` column stores the
*smoothed* RTT. -/
structure QuicMetricRecord where
  timestamp : ℚ
  segment_index : ℕ
  bitrate : ℚ
  segment_size_bytes : ℕ
  download_time_sec : ℚ
  throughput_bps : ℚ
  smoothed_throughput_bps : ℚ
  rtt_estimate_sec : ℚ
  buffer_level_sec : ℚ
  rebuffering_count : ℕ
  total_rebuffering_duration_sec : ℚ
  playback_position_sec : ℚ
  is_rebuffering : Bool
  bitrate_switch : ℕ
  goodput_bps : ℚ
  packet_loss_estimate : ℚ
deriving DecidableEq, Repr

/-- The mutable state of `quic_client.py`'s `MetricsCalculator` (the
fields read or written by `record_segment_metrics` and
`generate_summary_report`). -/
structure QuicCalcState where
  segment_duration : ℚ
  segment_metrics : List QuicMetricRecord
  throughput_history : List ℚ
  rtt_history : List ℚ
  buf : BufferState
  playback_position : ℚ
  bitrate_switches : ℕ
  previous_bitrate : ℚ
deriving DecidableEq, Repr

/-- `MetricsCalculator()` of `quic_client.py` with the default
`segment_duration = 2.0`: empty histories, fresh buffer state. -/
def quicCalcInit : QuicCalcState := ⟨2, [], [], [], bufInit, 0, 0, 0⟩

/-- `MetricsCalculator.record_segment_metrics` of `quic_client.py`
(lines 115–172): computes instantaneous and smoothed throughput, the
RTT estimate and its smoothing, updates the buffer, updates the playback
position only on completion, flags bitrate switches against the
previously recorded bitrate, computes goodput `min(throughput, bitrate)`
(for positive bitrate) and the clamped normalized-deviation loss
estimate, then appends the assembled record to the ordered log. -/
def record_segment_metrics (now : ℚ) (segment_index : ℕ) (bitrate : ℚ)
    (segment_size : ℕ) (download_time timestamp : ℚ) (is_complete : Bool)
    (s : QuicCalcState) : QuicCalcState × QuicMetricRecord :=
  let tp := calculate_throughput segment_size download_time s.throughput_history
  let throughput := tp.1
  let th1 := tp.2
  let smoothed_throughput := mean_or_zero th1
  let rp := estimate_rtt download_time segment_size s.rtt_history
  let rtt1 := rp.2
  let smoothed_rtt := mean_or_zero rtt1
  let ub := quic_update_buffer s.segment_duration now download_time is_complete s.buf
  let buf1 := ub.1
  let is_rebuffering := ub.2
  let playback_position :=
    if is_complete then (segment_index : ℚ) * s.segment_duration else s.playback_position
  let switch_pair :=
    if s.previous_bitrate ≠ 0 ∧ bitrate ≠ s.previous_bitrate then
      ((1 : ℕ), s.bitrate_switches + 1)
    else ((0 : ℕ), s.bitrate_switches)
  let goodput := if 0 < bitrate then pymin throughput bitrate else throughput
  let packet_loss_estimate :=
    if 1 < th1.length then
      let avg_throughput := th1.sum / th1.length
      if 0 < avg_throughput then
        pymin (pyabs (throughput - avg_throughput) / avg_throughput) 1
      else 0
    else 0
  let m : QuicMetricRecord :=
    ⟨timestamp, segment_index, bitrate, segment_size, download_time, throughput,
      smoothed_throughput, smoothed_rtt, buf1.buffer_level, buf1.rebuffering_count,
      buf1.total_rebuffering_duration, playback_position, is_rebuffering,
      switch_pair.1, goodput, packet_loss_estimate⟩
  (⟨s.segment_duration, s.segment_metrics ++ [m], th1, rtt1, buf1,
    playback_position, switch_pair.2, bitrate⟩, m)

/-- One row of `dash_client.py`'s metrics dictionary. -/
structure DashMetricRecord where
  timestamp : ℚ
  segment_index : ℕ
  representation_id : String
  bitrate_bps : ℚ
  segment_size_bytes : ℕ
  download_time_sec : ℚ
  throughput_bps : ℚ
  smoothed_throughput_bps : ℚ
  rtt_sec : ℚ
  buffer_level_sec : ℚ
  rebuffering_count : ℕ
  total_rebuffering_duration_sec : ℚ
  playback_position_sec : ℚ
  is_rebuffering : Bool
deriving DecidableEq, Repr

/-- The mutable state of `dash_client.py`'s `MetricsCalculator`. -/
structure DashCalcState where
  segment_duration : ℚ
  download_times : List ℚ
  throughput_history : List ℚ
  buf : BufferState
  playback_position : ℚ
  bitrate_history : List ℚ
  segment_metrics : List DashMetricRecord
deriving DecidableEq, Repr

/-- `MetricsCalculator(segment_duration=2.0)` of `dash_client.py`. -/
def dashCalcInit : DashCalcState := ⟨2, [], [], bufInit, 0, [], []⟩

/-- `MetricsCalculator.record_metrics` of `dash_client.py` (lines
97–133): throughput plus smoothing, `calculate_rtt` (the download time
itself, appended to the unbounded `download_times` list), buffer update
with the calculator's segment duration, unconditional playback-position
update, record append. -/
def record_metrics (now : ℚ) (segment_index : ℕ) (rep_id : String) (bitrate : ℚ)
    (segment_size : ℕ) (download_time timestamp : ℚ) (s : DashCalcState) :
    DashCalcState × DashMetricRecord :=
  let tp := calculate_throughput segment_size download_time s.throughput_history
  let throughput := tp.1
  let th1 := tp.2
  let smoothed_throughput := mean_or_zero th1
  let rtt := download_time
  let dts := s.download_times ++ [rtt]
  let ub := dash_update_buffer now download_time s.segment_duration s.buf
  let buf1 := ub.1
  let is_rebuffering := ub.2
  let playback_position := (segment_index : ℚ) * s.segment_duration
  let m : DashMetricRecord :=
    ⟨timestamp, segment_index, rep_id, bitrate, segment_size, download_time,
      throughput, smoothed_throughput, rtt, buf1.buffer_level,
      buf1.rebuffering_count, buf1.total_rebuffering_duration,
      playback_position, is_rebuffering⟩
  (⟨s.segment_duration, dts, th1, buf1, playback_position, s.bitrate_history,
    s.segment_metrics ++ [m]⟩, m)

/-! ### Claim C3: summarising an empty session -/

/-- The quantities written by `dash_client.py`'s
`generate_summary_report` (lines 156–174), in bits/sec and seconds (the
report's division by `1e6` for display is omitted). -/
structure DashSummary where
  total_segments : ℕ
  rebuffering_events : ℕ
  total_rebuffering_duration : ℚ
  average_throughput : ℚ
  average_rtt : ℚ
  maximum_buffer_level : ℚ
  bitrate_switches : ℕ
deriving DecidableEq, Repr

/-- `MetricsCalculator.generate_summary_report` of `dash_client.py`: it
has **no** empty-log guard — `sum(...) / len(self.segment_metrics)`
raises `ZeroDivisionError` when no segment was recorded (the `Except`
error branch models that exception). -/
def generate_summary_report_dash (s : DashCalcState) : Except String DashSummary :=
  if s.segment_metrics = [] then
    Except.error "ZeroDivisionError: division by zero"
  else
    Except.ok
      ⟨s.segment_metrics.length, s.buf.rebuffering_count,
        s.buf.total_rebuffering_duration,
        (s.segment_metrics.map (fun m => m.throughput_bps)).sum /
          s.segment_metrics.length,
        (s.segment_metrics.map (fun m => m.rtt_sec)).sum / s.segment_metrics.length,
        max_or_zero (s.segment_metrics.map (fun m => m.buffer_level_sec)),
        count_changes s.bitrate_history⟩

/-- The quantities written by `quic_client.py`'s
`generate_summary_report` (lines 197–238); the throughput, RTT and
goodput statistics are only written when the corresponding filtered
lists are non-empty. -/
structure QuicSummary where
  total_segments : ℕ
  rebuffering_events : ℕ
  total_rebuffering_duration : ℚ
  throughput_stats : Option (ℚ × ℚ × ℚ)
  rtt_stats : Option (ℚ × ℚ)
  maximum_buffer_level : ℚ
  average_buffer_level : ℚ
  bitrate_switches : ℕ
  goodput_efficiency : Option ℚ
deriving DecidableEq, Repr

/-- `MetricsCalculator.generate_summary_report` of `quic_client.py`:
`if not self.segment_metrics: return` — an empty log returns early
(`none`) and writes no summary at all; otherwise the aggregates are
computed over the recorded rows. -/
def generate_summary_report_quic (s : QuicCalcState) : Option QuicSummary :=
  if s.segment_metrics = [] then none
  else
    let throughputs := (s.segment_metrics.filter
        (fun m => 0 < m.throughput_bps)).map (fun m => m.throughput_bps)
    let rtts := (s.segment_metrics.filter
        (fun m => 0 < m.rtt_estimate_sec)).map (fun m => m.rtt_estimate_sec)
    let buffers := s.segment_metrics.map (fun m => m.buffer_level_sec)
    let goodputs := (s.segment_metrics.filter
        (fun m => 0 < m.goodput_bps)).map (fun m => m.goodput_bps)
    some
      ⟨(s.segment_metrics.filter (fun m => 0 < m.segment_index)).length,
        s.buf.rebuffering_count, s.buf.total_rebuffering_duration,
        (if throughputs = [] then none
         else some (throughputs.sum / throughputs.length, max_or_zero throughputs,
           min_or_zero throughputs)),
        (if rtts = [] then none else some (rtts.sum / rtts.length, max_or_zero rtts)),
        max_or_zero buffers, buffers.sum / buffers.length, s.bitrate_switches,
        (if goodputs ≠ [] ∧ throughputs ≠ [] then
           some (goodputs.sum / throughputs.sum * 100)
         else none)⟩

/-- Claim C3 (amended): summarising a session with zero recorded
segments does not fail on the multiplexed-stream path — it returns early
producing no summary at all — while the chunked-HTTP path raises a
division-by-zero when averaging over the empty log. -/
theorem summarize_empty_session (qs : QuicCalcState) (ds : DashCalcState)
    (hq : qs.segment_metrics = []) (hd : ds.segment_metrics = []) :
    generate_summary_report_quic qs = none ∧
    generate_summary_report_dash ds
      = Except.error "ZeroDivisionError: division by zero" := by
  constructor
  · simp [generate_summary_report_quic, hq]
  · simp [generate_summary_report_dash, hd]

/-- Witness for `summarize_empty_session` at the freshly constructed
calculators. -/
theorem summarize_empty_session_witness :
    (quicCalcInit.segment_metrics = [] ∧ dashCalcInit.segment_metrics = []) ∧
    generate_summary_report_quic quicCalcInit = none :=
  ⟨⟨rfl, rfl⟩, (summarize_empty_session quicCalcInit dashCalcInit rfl rfl).1⟩

/-- Claim C3 counterexample: `generate_summary_report` on the fresh
chunked-HTTP calculator (zero recorded segments) raises
`ZeroDivisionError` instead of returning an empty summary. -/
theorem summarize_empty_session_raises_counterexample :
    generate_summary_report_dash dashCalcInit
      = Except.error "ZeroDivisionError: division by zero" := by
  simp [generate_summary_report_dash, dashCalcInit]

/-! ### Claim C2: segment timeout handling in the session loop -/

/-- How one awaited segment resolves: the transfer-complete event fires
within the 30-second window (with the bytes received and the elapsed
time), or `asyncio.wait_for` times out with some partial byte count. -/
inductive SegmentOutcome where
  | completed (receivedBytes : ℕ) (elapsed : ℚ)
  | timedOut (receivedBytes : ℕ)
deriving DecidableEq, Repr

/-- The per-segment control state of `VideoStreamProtocol`
(`quic_client.py`): the bitrate ladder, current bitrate, segment index,
segment budget, and the shared metrics calculator. -/
structure ProtocolState where
  bitrates : List ℚ
  current_bitrate : ℚ
  segment_index : ℕ
  segments_per_bitrate : ℕ
  metrics_calc : QuicCalcState
deriving DecidableEq, Repr

/-- `VideoStreamProtocol.__init__` defaults: ladder `[360, 720, 1080]`,
start at the minimum, segment index `0`, four segments, fresh
calculator. -/
def protoInit : ProtocolState := ⟨[360, 720, 1080], 360, 0, 4, quicCalcInit⟩

/-- `VideoStreamProtocol.request_next_segment` (one call), given how the
awaited transfer resolves.  Past the segment budget: return `False` with
no record.  On timeout (lines 452–464): record exactly one metric with
`download_time = 30.0` and `is_complete=False`, then return `False`
*without* touching `segment_index`.  On completion: record with
`is_complete=True`, run the hysteresis ABR decision on the achieved
kbps, advance `segment_index`, return `True`.  `none` models the
`ValueError` of `bitrates.index` when the current bitrate is not on the
ladder (unreachable from `protoInit`). -/
def request_next_segment_step (now : ℚ) (s : ProtocolState)
    (outcome : SegmentOutcome) : Option (ProtocolState × Bool) :=
  if s.segments_per_bitrate ≤ s.segment_index then some (s, false)
  else
    match outcome with
    | SegmentOutcome.timedOut bytes =>
        let r := record_segment_metrics now s.segment_index
          (s.current_bitrate * 1000) bytes 30 now false s.metrics_calc
        some (⟨s.bitrates, s.current_bitrate, s.segment_index,
          s.segments_per_bitrate, r.1⟩, false)
    | SegmentOutcome.completed bytes elapsed =>
        let r := record_segment_metrics now s.segment_index
          (s.current_bitrate * 1000) bytes elapsed now true s.metrics_calc
        let throughput_kbps :=
          if 0 < elapsed then (bytes : ℚ) * 8 / elapsed / 1000 else 0
        match hysteresis_next s.bitrates s.current_bitrate throughput_kbps with
        | none => none
        | some nb =>
            some (⟨s.bitrates, nb, s.segment_index + 1,
              s.segments_per_bitrate, r.1⟩, true)

/-- The driving loop of `VideoStreamClient.run` (lines 599–603):
`while await protocol.request_next_segment(): ...` — the loop keeps
stepping while the call returns `True` and stops at the first `False`. -/
def run_loop (now : ℚ) : ProtocolState → List SegmentOutcome → Option ProtocolState
  | s, [] => some s
  | s, outcome :: rest =>
      match request_next_segment_step now s outcome with
      | none => none
      | some (s1, true) => run_loop now s1 rest
      | some (s1, false) => some s1

theorem record_segment_metrics_appends (now : ℚ) (i : ℕ) (b : ℚ) (sz : ℕ)
    (dt ts : ℚ) (c : Bool) (s : QuicCalcState) :
    (record_segment_metrics now i b sz dt ts c s).1.segment_metrics
      = s.segment_metrics ++ [(record_segment_metrics now i b sz dt ts c s).2] := rfl

theorem record_segment_metrics_buf (now : ℚ) (i : ℕ) (b : ℚ) (sz : ℕ)
    (dt ts : ℚ) (c : Bool) (s : QuicCalcState) :
    (record_segment_metrics now i b sz dt ts c s).1.buf
      = (quic_update_buffer s.segment_duration now dt c s.buf).1 := rfl

/-- Claim C2 (amended): when the completion signal never arrives within
the 30-second window, `request_next_segment` records exactly one metric
for the timeout — elapsed time `30`, `is_complete=False` (no buffer
credit, playback position untouched), carrying the partial byte count —
and the timed-out segment is not retried; but the call returns `False`
*without* advancing `segment_index`, which terminates the session's
decision loop instead of continuing it. -/
theorem timeout_records_once_and_stops_loop
    (now : ℚ) (s : ProtocolState) (bytes : ℕ)
    (hidx : s.segment_index < s.segments_per_bitrate) :
    request_next_segment_step now s (SegmentOutcome.timedOut bytes)
      = some (⟨s.bitrates, s.current_bitrate, s.segment_index, s.segments_per_bitrate,
          (record_segment_metrics now s.segment_index (s.current_bitrate * 1000)
            bytes 30 now false s.metrics_calc).1⟩, false) ∧
    (record_segment_metrics now s.segment_index (s.current_bitrate * 1000)
        bytes 30 now false s.metrics_calc).1.segment_metrics
      = s.metrics_calc.segment_metrics ++
          [(record_segment_metrics now s.segment_index (s.current_bitrate * 1000)
            bytes 30 now false s.metrics_calc).2] ∧
    (record_segment_metrics now s.segment_index (s.current_bitrate * 1000)
        bytes 30 now false s.metrics_calc).2.download_time_sec = 30 ∧
    (record_segment_metrics now s.segment_index (s.current_bitrate * 1000)
        bytes 30 now false s.metrics_calc).2.segment_size_bytes = bytes ∧
    (record_segment_metrics now s.segment_index (s.current_bitrate * 1000)
        bytes 30 now false s.metrics_calc).1.playback_position
      = s.metrics_calc.playback_position ∧
    (record_segment_metrics now s.segment_index (s.current_bitrate * 1000)
        bytes 30 now false s.metrics_calc).1.buf.buffer_level
      ≤ s.metrics_calc.buf.buffer_level := by
  refine ⟨?_, record_segment_metrics_appends _ _ _ _ _ _ _ _, rfl, rfl, rfl, ?_⟩
  · simp only [request_next_segment_step, if_neg (not_le.mpr hidx)]
  · rw [record_segment_metrics_buf, quic_update_buffer_level]
    simp only [Bool.false_eq_true, if_false, add_zero]
    have h := pymax_zero_nonneg (s.metrics_calc.buf.buffer_level - 30)
    simp only [pymax] at *
    split_ifs <;> linarith

/-- Witness for `timeout_records_once_and_stops_loop`: a timeout on the
first segment of the fresh protocol state. -/
theorem timeout_records_once_witness :
    (protoInit.segment_index < protoInit.segments_per_bitrate) ∧
    request_next_segment_step 0 protoInit (SegmentOutcome.timedOut 0)
      = some (⟨protoInit.bitrates, protoInit.current_bitrate, protoInit.segment_index,
          protoInit.segments_per_bitrate,
          (record_segment_metrics 0 protoInit.segment_index
            (protoInit.current_bitrate * 1000) 0 30 0 false
            protoInit.metrics_calc).1⟩, false) ∧
    (record_segment_metrics 0 protoInit.segment_index
        (protoInit.current_bitrate * 1000) 0 30 0 false
        protoInit.metrics_calc).2.download_time_sec = 30 :=
  ⟨by norm_num [protoInit],
   (timeout_records_once_and_stops_loop 0 protoInit 0 (by norm_num [protoInit])).1,
   (timeout_records_once_and_stops_loop 0 protoInit 0 (by norm_num [protoInit])).2.2.1⟩

/-- Claim C2 counterexample: after a timeout on segment `0`, the driving
loop stops — further outcomes are never consumed, the final segment
index is still `0` (the session did *not* advance to the next segment
index) and exactly the one timeout record exists. -/
theorem timeout_stops_session_counterexample :
    (run_loop 0 protoInit
        [SegmentOutcome.timedOut 0, SegmentOutcome.completed 1000 1]).map
      (fun f => (f.segment_index, f.metrics_calc.segment_metrics.length))
      = some (0, 1) := by
  simp only [run_loop, request_next_segment_step, protoInit]
  norm_num [record_segment_metrics, quicCalcInit]

end QuicVsDash
